import Mathlib

/-!
Verification of the cryptographic core of the rust-u2f software authenticator.

The data shapes (`ApplicationKey` in `u2f-core/src/application_key.rs`,
`UHIDDevice.destroy` in `uhid-tokio/src/uhid_device.rs`) are embedded from
the source.  The Key Store, Counter Source, Registration Flow and
Authentication Flow are not present in the visible source tree; they are
modelled from the specification (each such definition carries a doc comment
saying so).  Cryptographic signing is modelled symbolically: a signature is
a pair of the signing identity and the signed payload, and verification
checks that the verifier matches the signer and the payload matches the
message.  Serialized signature bytes expose only the payload, reflecting the
computational hiding of the signing key by a real signature scheme.
-/

/-- Opaque fixed-length application identifier, compared for exact equality. -/
structure AppId where
  bytes : List Nat
deriving DecidableEq, Repr

/-- Opaque key handle returned at registration and presented at authentication. -/
structure KeyHandle where
  bytes : List Nat
deriving DecidableEq, Repr

/-- Opaque private key material (the `PrivateShare` of the source). -/
structure PrivateShare where
  material : List Nat
deriving DecidableEq, Repr

/-- Opaque public key material of the per-application keypair. -/
structure PubKey where
  material : List Nat
deriving DecidableEq, Repr

/-- The persisted key record, embedded from `u2f-core/src/application_key.rs`:
fields `application`, `handle` and the private `key`. -/
structure ApplicationKey where
  application : AppId
  handle : KeyHandle
  key : PrivateShare
deriving DecidableEq, Repr

/-- Embeds `ApplicationKey::new` from `u2f-core/src/application_key.rs`. -/
def ApplicationKey.new (application : AppId) (handle : KeyHandle)
    (key : PrivateShare) : ApplicationKey :=
  { application := application, handle := handle, key := key }

/-- Embeds the serde-derived `Serialize` impl placed on `ApplicationKey` by
the derive attribute at `u2f-core/src/application_key.rs` line 10: a derived
impl emits every field in declaration order — `application`, `handle` and
the `key` field too, field privacy notwithstanding — and the impl itself is
public, callable from outside the crate. -/
def ApplicationKey.serialize (r : ApplicationKey) : List Nat :=
  r.application.bytes ++ r.handle.bytes ++ r.key.material

/-- Store errors of the Key Store interface. -/
inductive StoreError
  | Conflict
  | BackendFailure
deriving DecidableEq, Repr

/-- Modelled from the spec: the Key Store (section 4.1) is not in the visible
source; it is durable storage of `ApplicationKey` records, here a list. -/
structure KeyStore where
  records : List ApplicationKey
deriving DecidableEq, Repr

/-- Modelled from the spec: `get(application, handle)` returns a record only
when both fields match exactly, never a partial match. -/
def KeyStore.get (s : KeyStore) (application : AppId) (handle : KeyHandle) :
    Option ApplicationKey :=
  s.records.find? fun r =>
    decide (r.application = application) && decide (r.handle = handle)

/-- Modelled from the spec: `put` persists a new record, failing with
`Conflict` when `(application, handle)` already exists.  The boolean
`putFails` injects a persistence failure of the backing store, under which
`put` is all-or-nothing: the store is left unchanged. -/
def KeyStore.put (putFails : Bool) (s : KeyStore) (r : ApplicationKey) :
    Except StoreError KeyStore :=
  if putFails then .error .BackendFailure
  else if (s.get r.application r.handle).isSome then .error .Conflict
  else .ok { records := r :: s.records }

/-- Counter Source errors. -/
inductive CounterError
  | PersistFailed
deriving DecidableEq, Repr

/-- Modelled from the spec: the Counter Source (section 4.3) is not in the
visible source; its durable state is a single non-negative integer. -/
structure CounterStore where
  value : Nat
deriving DecidableEq, Repr

/-- Modelled from the spec: `next()` atomically reads the current value,
persists the incremented value and returns the new value; on persistence
failure (injected by `fault`) it fails entirely, returning no value. -/
def CounterStore.next (fault : Bool) (s : CounterStore) :
    Except CounterError (Nat × CounterStore) :=
  if fault then .error .PersistFailed
  else .ok (s.value + 1, { value := s.value + 1 })

/-- Runs `k` successful calls of `next()` on the Counter Source, collecting
the returned values and the final persisted state. -/
def runCounter (s : CounterStore) : Nat → List Nat × CounterStore
  | 0 => ([], s)
  | k + 1 =>
    let out := runCounter { value := s.value + 1 } k
    ((s.value + 1) :: out.1, out.2)

/-- The identity under which a signature was produced: either the device-wide
attestation key, or a per-application private key. -/
inductive Signer
  | attestation
  | device (priv : PrivateShare)
deriving DecidableEq, Repr

/-- Symbolic signature: the signing identity together with the signed payload. -/
structure Signature where
  signer : Signer
  payload : List Nat
deriving DecidableEq, Repr

/-- Symbolic signing. -/
def sign (who : Signer) (msg : List Nat) : Signature :=
  { signer := who, payload := msg }

/-- The verification material a relying party can hold: the attestation
certificate, or a per-application public key. -/
inductive Verifier
  | attestationCert
  | devicePub (pub : PubKey)
deriving DecidableEq, Repr

/-- Ideal public key derived from private key material (injective). -/
def pubOfPriv (p : PrivateShare) : PubKey :=
  { material := p.material }

/-- Symbolic verification: succeeds exactly when the payload equals the
message and the verification material corresponds to the signing identity. -/
def verify (v : Verifier) (sig : Signature) (msg : List Nat) : Bool :=
  decide (sig.payload = msg) &&
    match v, sig.signer with
    | .attestationCert, .attestation => true
    | .devicePub pub, .device priv => decide (pubOfPriv priv = pub)
    | _, _ => false

/-- Serialized wire bytes of a signature.  A real signature is a function of
the key and the payload but computationally hides the key; symbolically the
serialized bytes expose only the payload. -/
def Signature.serializeBytes (s : Signature) : List Nat :=
  s.payload

/-- Big-endian 4-byte encoding of the counter value. -/
def be32 (n : Nat) : List Nat :=
  [n / 2 ^ 24 % 256, n / 2 ^ 16 % 256, n / 2 ^ 8 % 256, n % 256]

/-- The fixed attestation certificate bytes, provisioned externally. -/
def attestationCertBytes : List Nat :=
  [42]

/-- The user-presence indicator byte, passed through unmodified. -/
def userPresenceByte : Nat :=
  1

/-- Registration failure. -/
inductive RegError
  | StoreFailure
deriving DecidableEq, Repr

/-- Modelled from the spec: the registration response of section 4.4 —
public key, key handle, attestation certificate, attestation signature. -/
structure RegResponse where
  publicKey : PubKey
  handle : KeyHandle
  certificate : List Nat
  signature : Signature
deriving DecidableEq, Repr

/-- Serialized bytes of a registration response. -/
def RegResponse.serializeBytes (r : RegResponse) : List Nat :=
  r.publicKey.material ++ r.handle.bytes ++ r.certificate ++
    r.signature.serializeBytes

/-- Modelled from the spec: the registration payload of section 4.4 step 5 —
a fixed prefix byte, the AppId, the challenge, the key handle and the public
key, concatenated in a fixed order. -/
def registrationPayload (app : AppId) (challenge : List Nat)
    (handle : KeyHandle) (pub : PubKey) : List Nat :=
  [0] ++ app.bytes ++ challenge ++ handle.bytes ++ pub.material

/-- Modelled from the spec: the Registration Flow (section 4.4) is not in the
visible source.  The freshly generated handle and keypair are inputs (their
generation is external randomness).  The flow persists the new record via
`put`; on persistence failure it aborts, produces no response and leaves the
store unchanged; on success it returns the response together with the new
store state. -/
def registrationFlow (putFails : Bool) (store : KeyStore) (app : AppId)
    (challenge : List Nat) (freshHandle : KeyHandle) (freshPriv : PrivateShare)
    (freshPub : PubKey) : Except RegError RegResponse × KeyStore :=
  match store.put putFails (ApplicationKey.new app freshHandle freshPriv) with
  | .error _ => (.error .StoreFailure, store)
  | .ok store' =>
    (.ok { publicKey := freshPub, handle := freshHandle,
           certificate := attestationCertBytes,
           signature := sign .attestation
             (registrationPayload app challenge freshHandle freshPub) },
     store')

/-- Authentication failure. -/
inductive AuthError
  | UnknownKeyHandle
  | CounterFailure
deriving DecidableEq, Repr

/-- Modelled from the spec: the authentication response of section 4.5 —
user-presence indicator, counter, signature. -/
structure AuthResponse where
  userPresence : Nat
  counter : Nat
  signature : Signature
deriving DecidableEq, Repr

/-- Serialized bytes of an authentication response. -/
def AuthResponse.serializeBytes (r : AuthResponse) : List Nat :=
  [r.userPresence] ++ be32 r.counter ++ r.signature.serializeBytes

/-- Modelled from the spec: the authentication payload of section 4.5 step 3 —
the AppId, the user-presence indicator, the counter value and the challenge,
concatenated in a fixed order. -/
def authenticationPayload (app : AppId) (counter : Nat)
    (challenge : List Nat) : List Nat :=
  app.bytes ++ [userPresenceByte] ++ be32 counter ++ challenge

/-- Modelled from the spec: the Authentication Flow (section 4.5) is not in
the visible source.  It looks up `(AppId, KeyHandle)`, failing with
`UnknownKeyHandle` when absent; then advances the Counter Source (whose
persistence failure is injected by `counterFault`), aborting without signing
on failure; then signs the payload with the located record private key.  The
second component is the Counter Source state after the call. -/
def authenticationFlow (store : KeyStore) (cs : CounterStore)
    (counterFault : Bool) (app : AppId) (handle : KeyHandle)
    (challenge : List Nat) : Except AuthError AuthResponse × CounterStore :=
  match store.get app handle with
  | none => (.error .UnknownKeyHandle, cs)
  | some record =>
    match CounterStore.next counterFault cs with
    | .error _ => (.error .CounterFailure, cs)
    | .ok (c, cs') =>
      (.ok { userPresence := userPresenceByte, counter := c,
             signature := sign (.device record.key)
               (authenticationPayload app c challenge) },
       cs')

/-- Parameters used to create UHID devices, from `uhid_device.rs`. -/
structure CreateParams where
  name : List Nat
  phys : List Nat
  uniq : List Nat
  bus : Nat
  vendor : Nat
  product : Nat
  version : Nat
  country : Nat
  data : List Nat
deriving DecidableEq, Repr

/-- The input events written to the UHID character device, from
`uhid_codec`: `Create`, `Input` and `Destroy` are the ones `uhid_device.rs`
sends. -/
inductive InputEvent
  | Create (params : CreateParams)
  | Input (data : List Nat)
  | Destroy
deriving DecidableEq, Repr

/-- Error of encoding or writing an event to the character device. -/
inductive StreamError
  | WriteFailed
deriving DecidableEq, Repr

/-- The inner `CharacterDevice` of `uhid_device.rs`, observed through the
events successfully sent to it and whether it has been closed.  The two
booleans inject failures of `send` and `close`. -/
structure CharacterDevice where
  sent : List InputEvent
  closed : Bool
  sendFails : Bool
  closeFails : Bool
deriving DecidableEq, Repr

/-- Sending an event to the character device: appends it to the event log,
or fails leaving the device unchanged. -/
def CharacterDevice.send (d : CharacterDevice) (e : InputEvent) :
    Except StreamError CharacterDevice :=
  if d.sendFails then .error .WriteFailed
  else .ok { d with sent := d.sent ++ [e] }

/-- Closing the character device, or failing to. -/
def CharacterDevice.close (d : CharacterDevice) :
    Except StreamError CharacterDevice :=
  if d.closeFails then .error .WriteFailed
  else .ok { d with closed := true }

/-- The UHID device wrapper of `uhid_device.rs`. -/
structure UHIDDevice where
  inner : CharacterDevice
deriving DecidableEq, Repr

/-- Embeds `UHIDDevice::destroy` from `uhid_device.rs`: send the `Destroy`
input event, propagating a failure with `?`, then close the inner device,
propagating a failure with `?`, then return `Ok(())`.  The second component
is the device state after the call (in Rust `destroy` consumes `self`; the
state is kept here to observe what the call did). -/
def UHIDDevice.destroy (d : UHIDDevice) :
    Except StreamError Unit × UHIDDevice :=
  match d.inner.send .Destroy with
  | .error e => (.error e, d)
  | .ok inner₁ =>
    match inner₁.close with
    | .error e => (.error e, { inner := inner₁ })
    | .ok inner₂ => (.ok (), { inner := inner₂ })

/-- Embeds `UHIDDevice::send_input` from `uhid_device.rs`. -/
def UHIDDevice.send_input (d : UHIDDevice) (data : List Nat) :
    Except StreamError Unit × UHIDDevice :=
  match d.inner.send (.Input data) with
  | .error e => (.error e, d)
  | .ok inner₁ => (.ok (), { inner := inner₁ })

/-- The publicly indexable shape of a Key Store: the `(application, handle)`
pairs of its records, without the private key material. -/
def KeyStore.shape (s : KeyStore) : List (AppId × KeyHandle) :=
  s.records.map fun r => (r.application, r.handle)

/-- Sample application identifier used to instantiate theorems. -/
def sampleAppA : AppId := { bytes := [10] }

/-- A second, distinct sample application identifier. -/
def sampleAppB : AppId := { bytes := [11] }

/-- Sample key handle. -/
def sampleHandle : KeyHandle := { bytes := [1] }

/-- Sample private key material. -/
def sampleKey : PrivateShare := { material := [5] }

/-- A second, distinct sample private key. -/
def sampleKey2 : PrivateShare := { material := [6] }

/-- Sample challenge bytes. -/
def sampleChallenge : List Nat := [7]

/-- Sample stored record under `sampleAppA`. -/
def sampleRecord : ApplicationKey :=
  ApplicationKey.new sampleAppA sampleHandle sampleKey

/-- Sample store holding exactly `sampleRecord`. -/
def sampleStore : KeyStore := { records := [sampleRecord] }

/-- A store with the same `(application, handle)` shape as `sampleStore`
but a different private key. -/
def sampleStore2 : KeyStore :=
  { records := [ApplicationKey.new sampleAppA sampleHandle sampleKey2] }

/-- The empty store. -/
def emptyStore : KeyStore := { records := [] }

/-- A fresh counter store. -/
def sampleCounter : CounterStore := { value := 0 }

/-- Sample device in which every operation succeeds. -/
def sampleDevice : UHIDDevice :=
  { inner := { sent := [], closed := false, sendFails := false,
               closeFails := false } }

/-- Closed form of `runCounter`: the values returned by `k` successful calls
starting from persisted value `v` are `v+1, v+2, ..., v+k`, and the
persisted value afterwards is `v+k`. -/
theorem runCounter_eq (k : Nat) (s : CounterStore) :
    runCounter s k =
      ((List.range k).map (fun i => s.value + i + 1), { value := s.value + k }) := by
  induction k generalizing s with
  | zero => simp [runCounter]
  | succ k ih =>
    simp only [runCounter, ih]
    refine Prod.ext ?_ ?_
    · simp only [List.range_succ_eq_map, List.map_cons, List.map_map]
      refine congrArg₂ _ (by omega) (List.map_congr_left fun i _ => ?_)
      simp [Function.comp]
      omega
    · simp only []
      congr 1
      omega

/-- A store lookup succeeds or fails depending only on the store shape: the
predicate of `get` inspects only the `application` and `handle` fields. -/
theorem get_isSome_of_shape_eq (s₁ s₂ : KeyStore) (a : AppId) (h : KeyHandle)
    (hs : s₁.shape = s₂.shape) :
    (s₁.get a h).isSome = (s₂.get a h).isSome := by
  have key : ∀ s : KeyStore, (s.get a h).isSome =
      (s.shape.any fun p => decide (p.1 = a) && decide (p.2 = h)) := by
    intro s
    simp only [KeyStore.get, KeyStore.shape, List.any_map]
    induction s.records with
    | nil => simp
    | cons r rs ih =>
      by_cases hr : r.application = a ∧ r.handle = h
      · simp [List.find?, List.any, hr.1, hr.2, Function.comp]
      · rw [Decidable.not_and_iff_or_not] at hr
        rcases hr with hr | hr <;>
          simp [List.find?, List.any, hr, Function.comp] <;>
          simpa using ih
  rw [key, key, hs]

/-- C9 (amended): `ApplicationKey::new` returns a record whose `application`
field is its first argument, whose `handle` field is its second and whose
private `key` (read through the crate-private accessor) is its third; the
`key` field is crate-private with only a crate-visible accessor, yet the
public serde-derived `Serialize` impl emits the record with the private key
material included, so code outside the crate can still read the key of an
existing record through serialization. -/
theorem applicationKey_new_fields (a : AppId) (h : KeyHandle)
    (k : PrivateShare) :
    (ApplicationKey.new a h k).application = a ∧
    (ApplicationKey.new a h k).handle = h ∧
    (ApplicationKey.new a h k).key = k ∧
    ApplicationKey.serialize (ApplicationKey.new a h k) =
      a.bytes ++ h.bytes ++ k.material :=
  ⟨rfl, rfl, rfl, rfl⟩

/-- Counterexample to C9 as stated: the claim that no operation outside the
crate can read the private key of an existing record fails at
`sampleRecord` — the public derived serialization distinguishes two records
that agree on `application` and `handle` and differ only in the key, and it
emits the private key material verbatim (here as a suffix of the output). -/
theorem applicationKey_key_readable_outside_crate :
    ApplicationKey.serialize
        (ApplicationKey.new sampleAppA sampleHandle sampleKey) ≠
      ApplicationKey.serialize
        (ApplicationKey.new sampleAppA sampleHandle sampleKey2) ∧
    sampleKey.material <:+
      ApplicationKey.serialize
        (ApplicationKey.new sampleAppA sampleHandle sampleKey) := by
  decide

/-- C10: `UHIDDevice::destroy` first sends the `Destroy` input event and only
then closes the inner device; it returns `Ok` exactly when both steps
succeed; when sending `Destroy` fails the error is returned and the device
state is unchanged — in particular it is not closed by this call. -/
theorem uhid_destroy_sends_then_closes (d : UHIDDevice) :
    d.destroy =
      (if d.inner.sendFails then (.error .WriteFailed, d)
       else if d.inner.closeFails then
         (.error .WriteFailed,
          { inner := { d.inner with sent := d.inner.sent ++ [.Destroy] } })
       else
         (.ok (),
          { inner :=
              { d.inner with
                  sent := d.inner.sent ++ [.Destroy]
                  closed := true } })) := by
  by_cases hs : d.inner.sendFails <;>
    by_cases hc : d.inner.closeFails <;>
      simp [UHIDDevice.destroy, CharacterDevice.send, CharacterDevice.close,
        hs, hc]

/-- C1: a stored record is located exclusively by the exact pair: when the
handle `h` is stored only under `a`, a lookup under any `b ≠ a` returns
`none`, and any successful lookup returns a record matching both queried
fields exactly. -/
theorem keystore_get_isolation (s : KeyStore) (r : ApplicationKey)
    (a b : AppId) (h : KeyHandle)
    (_hmem : r ∈ s.records) (_happ : r.application = a) (_hh : r.handle = h)
    (honly : ∀ r' ∈ s.records, r'.handle = h → r'.application = a)
    (hne : b ≠ a)
    (a' : AppId) (h' : KeyHandle) (r' : ApplicationKey)
    (hget : s.get a' h' = some r') :
    s.get b h = none ∧ r'.application = a' ∧ r'.handle = h' := by
  refine ⟨?_, ?_⟩
  · rw [KeyStore.get, List.find?_eq_none]
    intro x hx
    simp only [Bool.and_eq_true, decide_eq_true_eq, not_and]
    intro hxa hxh
    exact hne (hxa ▸ honly x hx hxh)
  · have := List.find?_some hget
    simp only [Bool.and_eq_true, decide_eq_true_eq] at this
    exact this

/-- C2: counter values returned by successful `next()` calls are strictly
increasing and pairwise distinct across the lifetime of the store, also
across a process restart: the second run re-opens the counter state
persisted by the first run, and its values continue strictly above every
value seen before the restart. -/
theorem counter_monotonic (s : CounterStore) (k₁ k₂ : Nat) :
    List.Chain' (· < ·)
      ((runCounter s k₁).1 ++ (runCounter (runCounter s k₁).2 k₂).1) ∧
    ((runCounter s k₁).1 ++ (runCounter (runCounter s k₁).2 k₂).1).Nodup := by
  have hjoin : (runCounter s k₁).1 ++ (runCounter (runCounter s k₁).2 k₂).1 =
      (List.range (k₁ + k₂)).map fun i => s.value + i + 1 := by
    rw [runCounter_eq, runCounter_eq]
    simp only [List.range_add, List.map_append, List.map_map]
    refine congrArg _ (List.map_congr_left fun i _ => ?_)
    simp [Function.comp]
    omega
  have hpw : ((List.range (k₁ + k₂)).map fun i => s.value + i + 1).Pairwise
      (· < ·) := by
    refine List.Pairwise.map _ (fun a b hab => ?_) (List.pairwise_lt_range _)
    omega
  rw [hjoin]
  exact ⟨List.chain'_iff_pairwise.mpr hpw, hpw.imp Nat.ne_of_lt⟩

/-- C4: when the Key Store `put` fails, the Registration Flow returns the
failure and produces no response — no handle is handed out — and the store
is unchanged, so a lookup of the handle that would have been generated still
finds nothing. -/
theorem registration_fail_closed (store : KeyStore) (app : AppId)
    (challenge : List Nat) (fh : KeyHandle) (fk : PrivateShare) (fp : PubKey)
    (hfresh : store.get app fh = none) :
    registrationFlow true store app challenge fh fk fp =
      (.error .StoreFailure, store) ∧
    ((registrationFlow true store app challenge fh fk fp).2).get app fh =
      none := by
  refine ⟨?_, ?_⟩ <;> simp [registrationFlow, KeyStore.put, hfresh]

/-- C5: an Authentication Flow whose `(AppId, KeyHandle)` lookup finds no
record fails with `UnknownKeyHandle` and leaves the counter store exactly as
it was; moreover the outcome is identical for any other store in which the
pair is also absent — even one that stores the same handle under a different
`AppId` — so the error does not reveal whether the handle exists elsewhere. -/
theorem authentication_unknown_handle (s s' : KeyStore) (cs : CounterStore)
    (fault : Bool) (app : AppId) (h : KeyHandle) (ch : List Nat)
    (habs : s.get app h = none) (habs' : s'.get app h = none) :
    authenticationFlow s cs fault app h ch = (.error .UnknownKeyHandle, cs) ∧
    authenticationFlow s' cs fault app h ch =
      authenticationFlow s cs fault app h ch := by
  refine ⟨?_, ?_⟩ <;> simp [authenticationFlow, habs, habs']

/-- C7: when counter persistence fails, `next()` returns an error and no
counter value, and an Authentication Flow that has located its record aborts
with `CounterFailure`, producing no signature and leaving the counter store
unchanged. -/
theorem authentication_counter_fail (s : KeyStore) (cs : CounterStore)
    (app : AppId) (h : KeyHandle) (ch : List Nat) (r : ApplicationKey)
    (hfound : s.get app h = some r) :
    CounterStore.next true cs = .error .PersistFailed ∧
    authenticationFlow s cs true app h ch = (.error .CounterFailure, cs) := by
  refine ⟨rfl, ?_⟩
  simp [authenticationFlow, hfound, CounterStore.next]

/-- C6: a successful registration response carries a signature that verifies
against the attestation certificate and not against the newly generated
per-application public key; a successful authentication response carries a
signature produced with the located record private key, verifying against
the corresponding per-application public key and not against the attestation
certificate. -/
theorem attestation_device_key_separation (store s : KeyStore) (app : AppId)
    (ch ch₂ : List Nat) (fh h : KeyHandle) (fk : PrivateShare) (fp : PubKey)
    (cs : CounterStore) (r : ApplicationKey)
    (hfresh : store.get app fh = none) (hfound : s.get app h = some r) :
    (registrationFlow false store app ch fh fk fp).1.map
        (fun resp => verify .attestationCert resp.signature
          resp.signature.payload) = .ok true ∧
    (registrationFlow false store app ch fh fk fp).1.map
        (fun resp => verify (.devicePub resp.publicKey) resp.signature
          resp.signature.payload) = .ok false ∧
    (authenticationFlow s cs false app h ch₂).1.map
        (fun resp => verify (.devicePub (pubOfPriv r.key)) resp.signature
          resp.signature.payload) = .ok true ∧
    (authenticationFlow s cs false app h ch₂).1.map
        (fun resp => verify .attestationCert resp.signature
          resp.signature.payload) = .ok false := by
  refine ⟨?_, ?_, ?_, ?_⟩ <;>
    simp [registrationFlow, KeyStore.put, ApplicationKey.new, hfresh,
      authenticationFlow, hfound, CounterStore.next, verify, sign, Except.map]

/-- C8: the payload of a successful authentication signature is the
concatenation, in fixed order, of the AppId bytes, the user-presence byte,
the 4-byte counter value and the challenge, and the signature verifies over
exactly that payload with the public key of the located record. -/
theorem authentication_signed_payload (s : KeyStore) (cs : CounterStore)
    (app : AppId) (h : KeyHandle) (ch : List Nat) (r : ApplicationKey)
    (hfound : s.get app h = some r) :
    authenticationPayload app (cs.value + 1) ch =
      app.bytes ++ [userPresenceByte] ++ be32 (cs.value + 1) ++ ch ∧
    (authenticationFlow s cs false app h ch).1.map
        (fun resp => (resp.signature.payload, resp.counter)) =
      .ok (authenticationPayload app (cs.value + 1) ch, cs.value + 1) ∧
    (authenticationFlow s cs false app h ch).1.map
        (fun resp => verify (.devicePub (pubOfPriv r.key)) resp.signature
          (authenticationPayload app (cs.value + 1) ch)) = .ok true := by
  refine ⟨rfl, ?_, ?_⟩ <;>
    simp [authenticationFlow, hfound, CounterStore.next, verify, sign,
      Except.map]

/-- C3: the private key material of an `ApplicationKey` never reaches the
serialized bytes of any response: a registration run with two different
private keys produces identical serialized outcomes, and two stores agreeing
on the `(application, handle)` shape of their records — however their key
fields differ — produce identical serialized authentication outcomes.  Only
the `application` and `handle` fields influence what is externally
visible. -/
theorem private_key_never_serialized (putFails : Bool) (store : KeyStore)
    (app app₂ : AppId) (ch ch₂ : List Nat) (fh h : KeyHandle)
    (k₁ k₂ : PrivateShare) (fp : PubKey) (s₁ s₂ : KeyStore)
    (cs : CounterStore) (fault : Bool)
    (hshape : s₁.shape = s₂.shape) :
    (registrationFlow putFails store app ch fh k₁ fp).1.map
        RegResponse.serializeBytes =
      (registrationFlow putFails store app ch fh k₂ fp).1.map
        RegResponse.serializeBytes ∧
    (authenticationFlow s₁ cs fault app₂ h ch₂).1.map
        AuthResponse.serializeBytes =
      (authenticationFlow s₂ cs fault app₂ h ch₂).1.map
        AuthResponse.serializeBytes := by
  constructor
  · cases putFails <;>
      by_cases hc : (store.get app fh).isSome <;>
        simp [registrationFlow, KeyStore.put, ApplicationKey.new, hc]
  · have hiss := get_isSome_of_shape_eq s₁ s₂ app₂ h hshape
    cases h₁ : s₁.get app₂ h <;> cases h₂ : s₂.get app₂ h <;>
      rw [h₁, h₂] at hiss <;> simp at hiss <;> cases fault <;>
      simp [authenticationFlow, h₁, h₂, CounterStore.next, Except.map,
        AuthResponse.serializeBytes, Signature.serializeBytes, sign]

/-- Witness for C1 at concrete inputs: the handle stored under `sampleAppA`
is not found under `sampleAppB`, and the successful lookup matches exactly. -/
theorem keystore_get_isolation_witness :
    sampleStore.get sampleAppB sampleHandle = none ∧
    sampleRecord.application = sampleAppA ∧
    sampleRecord.handle = sampleHandle :=
  keystore_get_isolation sampleStore sampleRecord sampleAppA sampleAppB
    sampleHandle (by decide) (by decide) (by decide) (by decide) (by decide)
    sampleAppA sampleHandle sampleRecord (by decide)

/-- Witness for C4 at concrete inputs. -/
theorem registration_fail_closed_witness :
    registrationFlow true emptyStore sampleAppA sampleChallenge sampleHandle
        sampleKey (pubOfPriv sampleKey) = (.error .StoreFailure, emptyStore) ∧
    ((registrationFlow true emptyStore sampleAppA sampleChallenge sampleHandle
        sampleKey (pubOfPriv sampleKey)).2).get sampleAppA sampleHandle =
      none :=
  registration_fail_closed emptyStore sampleAppA sampleChallenge sampleHandle
    sampleKey (pubOfPriv sampleKey) (by decide)

/-- Witness for C5 at concrete inputs: the same `UnknownKeyHandle` outcome
whether the probed handle exists under a different application or not. -/
theorem authentication_unknown_handle_witness :
    authenticationFlow emptyStore sampleCounter false sampleAppB sampleHandle
        sampleChallenge = (.error .UnknownKeyHandle, sampleCounter) ∧
    authenticationFlow sampleStore sampleCounter false sampleAppB sampleHandle
        sampleChallenge =
      authenticationFlow emptyStore sampleCounter false sampleAppB
        sampleHandle sampleChallenge :=
  authentication_unknown_handle emptyStore sampleStore sampleCounter false
    sampleAppB sampleHandle sampleChallenge (by decide) (by decide)

/-- Witness for C6 at concrete inputs. -/
theorem attestation_device_key_separation_witness :
    (registrationFlow false emptyStore sampleAppA sampleChallenge sampleHandle
          sampleKey (pubOfPriv sampleKey)).1.map
        (fun resp => verify .attestationCert resp.signature
          resp.signature.payload) = .ok true ∧
    (registrationFlow false emptyStore sampleAppA sampleChallenge sampleHandle
          sampleKey (pubOfPriv sampleKey)).1.map
        (fun resp => verify (.devicePub resp.publicKey) resp.signature
          resp.signature.payload) = .ok false ∧
    (authenticationFlow sampleStore sampleCounter false sampleAppA
          sampleHandle sampleChallenge).1.map
        (fun resp => verify (.devicePub (pubOfPriv sampleRecord.key))
          resp.signature resp.signature.payload) = .ok true ∧
    (authenticationFlow sampleStore sampleCounter false sampleAppA
          sampleHandle sampleChallenge).1.map
        (fun resp => verify .attestationCert resp.signature
          resp.signature.payload) = .ok false :=
  attestation_device_key_separation emptyStore sampleStore sampleAppA
    sampleChallenge sampleChallenge sampleHandle sampleHandle sampleKey
    (pubOfPriv sampleKey) sampleCounter sampleRecord (by decide) (by decide)

/-- Witness for C7 at concrete inputs. -/
theorem authentication_counter_fail_witness :
    CounterStore.next true sampleCounter = .error .PersistFailed ∧
    authenticationFlow sampleStore sampleCounter true sampleAppA sampleHandle
        sampleChallenge = (.error .CounterFailure, sampleCounter) :=
  authentication_counter_fail sampleStore sampleCounter sampleAppA
    sampleHandle sampleChallenge sampleRecord (by decide)

/-- Witness for C8 at concrete inputs: the fresh counter store yields
counter 1 and the fixed-order payload. -/
theorem authentication_signed_payload_witness :
    authenticationPayload sampleAppA (sampleCounter.value + 1)
        sampleChallenge =
      sampleAppA.bytes ++ [userPresenceByte] ++
        be32 (sampleCounter.value + 1) ++ sampleChallenge ∧
    (authenticationFlow sampleStore sampleCounter false sampleAppA
          sampleHandle sampleChallenge).1.map
        (fun resp => (resp.signature.payload, resp.counter)) =
      .ok (authenticationPayload sampleAppA (sampleCounter.value + 1)
          sampleChallenge,
        sampleCounter.value + 1) ∧
    (authenticationFlow sampleStore sampleCounter false sampleAppA
          sampleHandle sampleChallenge).1.map
        (fun resp => verify (.devicePub (pubOfPriv sampleRecord.key))
          resp.signature
          (authenticationPayload sampleAppA (sampleCounter.value + 1)
            sampleChallenge)) = .ok true :=
  authentication_signed_payload sampleStore sampleCounter sampleAppA
    sampleHandle sampleChallenge sampleRecord (by decide)

/-- Witness for C3 at concrete inputs: swapping the private key leaves the
serialized outcomes unchanged. -/
theorem private_key_never_serialized_witness :
    (registrationFlow false emptyStore sampleAppA sampleChallenge
          sampleHandle sampleKey (pubOfPriv sampleKey)).1.map
        RegResponse.serializeBytes =
      (registrationFlow false emptyStore sampleAppA sampleChallenge
          sampleHandle sampleKey2 (pubOfPriv sampleKey)).1.map
        RegResponse.serializeBytes ∧
    (authenticationFlow sampleStore sampleCounter false sampleAppA
          sampleHandle sampleChallenge).1.map
        AuthResponse.serializeBytes =
      (authenticationFlow sampleStore2 sampleCounter false sampleAppA
          sampleHandle sampleChallenge).1.map
        AuthResponse.serializeBytes :=
  private_key_never_serialized false emptyStore sampleAppA sampleAppA
    sampleChallenge sampleChallenge sampleHandle sampleHandle sampleKey
    sampleKey2 (pubOfPriv sampleKey) sampleStore sampleStore2 sampleCounter
    false (by decide)
